/-
  Verification of the iQE050 BBQ controller web app (bluetooth.js / app.js).

  Shallow embedding of the protocol layer:
  * the 20-byte telemetry decoder `BBQBluetooth.handleTelemetry`,
  * the 2-byte command encoders (`setPitTemp`, `setFood1Alarm`, ...),
  * the fuel estimator `BBQApp.updateFuelMonitor`,
  * the connection session (`connect` / `onDisconnected` / `reconnect` /
    `disconnect` / `sendCommand`).

  Bytes are modelled as `Nat`, JS numbers used in arithmetic as `Int` or `Rat`
  (all values occurring here are exact in double precision, so `Rat` models
  the JS arithmetic faithfully on the inputs considered).
-/
import Mathlib

namespace BBQ

/-! ## Telemetry codec (bluetooth.js, `handleTelemetry`) -/

/-- The structured reading produced by `handleTelemetry` from a 20-byte frame. -/
structure TelemetryData where
  pitAlarm : Nat
  delayTime : Nat
  delayPitSet : Nat
  pitTemp : Nat
  food1Temp : Nat
  food2Temp : Nat
  byte9 : Nat
  pitSet : Nat
  food1Alarm : Nat
  food2Alarm : Nat
  fanDuty : Nat
  byte14 : Nat
  byte15 : Nat
  food1TempTrigger : Nat
  food1PitSet : Nat
  food2TempTrigger : Nat
  food2PitSet : Nat
  uptimeMin : Nat
  lidDetect : Nat
  fanSpeed : Nat
  heartbeat : Nat
  delayEnabled : Nat
  flagUnknown : Bool
  flagFood1Enabled : Bool
  flagFood2Enabled : Bool
  flagFood1Done : Bool
  flagFood2Done : Bool
  flagPitHot : Bool
  flagPitCold : Bool
  flagLidOpen : Bool
  deriving DecidableEq, Repr

/-- Field extraction of `handleTelemetry` on a frame known to have 20 bytes.
`b.getD i 0` models `dataView.getUint8(i)`; `getUint16(i, false)` is
big-endian, i.e. `b[i]*256 + b[i+1]`. -/
def decodeFrame (b : List Nat) : TelemetryData :=
  let byte9 := b.getD 9 0
  let byte14 := b.getD 14 0
  let byte15 := b.getD 15 0
  { pitAlarm := b.getD 0 0
    delayTime := b.getD 1 0
    delayPitSet := b.getD 2 0
    pitTemp := b.getD 3 0 * 256 + b.getD 4 0
    food1Temp := b.getD 5 0 * 256 + b.getD 6 0
    food2Temp := b.getD 7 0 * 256 + b.getD 8 0
    byte9 := byte9
    pitSet := b.getD 10 0
    food1Alarm := b.getD 11 0
    food2Alarm := b.getD 12 0
    fanDuty := b.getD 13 0
    byte14 := byte14
    byte15 := byte15
    food1TempTrigger := b.getD 16 0
    food1PitSet := b.getD 17 0
    food2TempTrigger := b.getD 18 0
    food2PitSet := b.getD 19 0
    uptimeMin := (byte9 >>> 4) &&& 0x0F
    lidDetect := (byte9 >>> 3) &&& 0x01
    fanSpeed := byte9 &&& 0x07
    heartbeat := (byte14 >>> 7) &&& 0x01
    delayEnabled := byte14 &&& 0x01
    flagUnknown := byte15 &&& 0x01 ≠ 0
    flagFood1Enabled := byte15 &&& 0x02 ≠ 0
    flagFood2Enabled := byte15 &&& 0x04 ≠ 0
    flagFood1Done := byte15 &&& 0x08 ≠ 0
    flagFood2Done := byte15 &&& 0x10 ≠ 0
    flagPitHot := byte15 &&& 0x20 ≠ 0
    flagPitCold := byte15 &&& 0x40 ≠ 0
    flagLidOpen := byte15 &&& 0x80 ≠ 0 }

/-- `handleTelemetry`: rejects any buffer whose length is not exactly 20
(`if (dataView.byteLength !== 20) return;` — the data callback is not
invoked), otherwise decodes the frame and delivers it to the callback. -/
def handleTelemetry (b : List Nat) : Option TelemetryData :=
  if b.length = 20 then some (decodeFrame b) else none

/-! ## Command codec (bluetooth.js, `setPitTemp` and friends)

Each `...Arg` definition is the argument-byte computation of the
corresponding `async set...` shortcut; the transmitted frame is
`[opcode, arg]` (`sendCommand` builds `Uint8Array([command, value])`). -/

/-- `setPitTemp`: `value = Math.max(150, Math.min(400, tempF)) - 145`. -/
def setPitTempArg (tempF : Int) : Int :=
  max 150 (min 400 tempF) - 145

/-- The clamp `setPitTemp` applies: `Math.max(150, Math.min(400, tempF))`. -/
def clampPitTemp (tempF : Int) : Int :=
  max 150 (min 400 tempF)

/-- The 2-byte frame sent by `setPitTemp`. -/
def setPitTempFrame (tempF : Int) : List Int :=
  [0x01, setPitTempArg tempF]

/-- `setFood1Alarm`: `value = tempF === 0 ? 0 : Math.max(50, Math.min(250, tempF))`. -/
def setFood1AlarmArg (tempF : Int) : Int :=
  if tempF = 0 then 0 else max 50 (min 250 tempF)

/-- `setFood2Alarm`: same encoding as `setFood1Alarm`, opcode 0x03. -/
def setFood2AlarmArg (tempF : Int) : Int :=
  if tempF = 0 then 0 else max 50 (min 250 tempF)

/-- `setPitAlarm`: `value = tempF === 0 ? 0 : Math.max(20, Math.min(100, tempF))`. -/
def setPitAlarmArg (tempF : Int) : Int :=
  if tempF = 0 then 0 else max 20 (min 100 tempF)

/-- `setFanSpeed`: `value = Math.max(0, Math.min(5, speed))`. -/
def setFanSpeedArg (speed : Int) : Int :=
  max 0 (min 5 speed)

/-- `setSoundLevel`: `value = Math.max(0, Math.min(5, level))`. -/
def setSoundLevelArg (level : Int) : Int :=
  max 0 (min 5 level)

/-- `setDisplayBrightness`: `value = Math.max(1, Math.min(3, level))`,
together with the warning flag: `if (level === 0) console.warn(...)`. -/
def setDisplayBrightnessArg (level : Int) : Int × Bool :=
  (max 1 (min 3 level), level = 0)

/-- `setDelayTime`: `value = Math.max(0, Math.min(96, fifteenMinBlocks))`. -/
def setDelayTimeArg (blocks : Int) : Int :=
  max 0 (min 96 blocks)

/-- `setDelayPitSet`: `0` passes through, otherwise
`Math.max(150, Math.min(400, tempF)) - 145`. -/
def setDelayPitSetArg (tempF : Int) : Int :=
  if tempF = 0 then 0 else max 150 (min 400 tempF) - 145

/-- `setFood1TempTrigger`: `value = tempF === 0 ? 0 : Math.max(50, Math.min(250, tempF))`. -/
def setFood1TempTriggerArg (tempF : Int) : Int :=
  if tempF = 0 then 0 else max 50 (min 250 tempF)

/-- `setFood1PitSet`: `0` passes through, otherwise clamp to 150–400 then `- 145`. -/
def setFood1PitSetArg (tempF : Int) : Int :=
  if tempF = 0 then 0 else max 150 (min 400 tempF) - 145

/-- `setFood2TempTrigger`: same encoding as `setFood1TempTrigger`, opcode 0x0E. -/
def setFood2TempTriggerArg (tempF : Int) : Int :=
  if tempF = 0 then 0 else max 50 (min 250 tempF)

/-- `setFood2PitSet`: same encoding as `setFood1PitSet`, opcode 0x0F. -/
def setFood2PitSetArg (tempF : Int) : Int :=
  if tempF = 0 then 0 else max 150 (min 400 tempF) - 145

/-- The clamp of the "0 or 50–250" alarm/trigger family. -/
def clampAlarm50to250 (tempF : Int) : Int :=
  if tempF = 0 then 0 else max 50 (min 250 tempF)

/-- The clamp of the pit-alarm "0 or 20–100" range. -/
def clampPitAlarm (tempF : Int) : Int :=
  if tempF = 0 then 0 else max 20 (min 100 tempF)

/-- The clamp of the "0 or 150–400" optional pit-set family. -/
def clampOptPitSet (tempF : Int) : Int :=
  if tempF = 0 then 0 else max 150 (min 400 tempF)

/-- The clamp of a direct `Math.max(lo, Math.min(hi, v))` range. -/
def clampRange (lo hi v : Int) : Int :=
  max lo (min hi v)

/-- Decoding of a pit-set-family raw byte back to °F, as done by the app's
display code (`this.currentData.pitSet + 145`, `target + 145`,
`data.food1PitSet + 145`, ... in app.js). -/
def decodePitSet (rawByte : Int) : Int :=
  rawByte + 145

/-! ## Fuel estimator (app.js, `BBQApp.updateFuelMonitor`)

Times are milliseconds (`Date.now()`), modelled as `Int`; duty percentages
and drop rates as `Rat` (JS double arithmetic is exact on the values
involved, apart from the `-0.2` threshold which the spec states as the
rational −0.2). -/

/-- The fields of a decoded reading that `updateFuelMonitor` consumes. -/
structure FMReading where
  fanSpeed : Int
  pitTemp : Int
  pitSet : Int
  deriving DecidableEq, Repr

/-- The `this.fuelMonitor` record of `BBQApp`. -/
structure FMState where
  fanDutyHistory : List (Int × Rat)
  tempDropHistory : List (Int × Rat)
  lastPitTemp : Option Int
  lastCheckTime : Option Int
  lowFuelAlerted : Bool
  deriving DecidableEq, Repr

/-- The initial `fuelMonitor` state from the `BBQApp` constructor. -/
def initFMState : FMState :=
  { fanDutyHistory := [], tempDropHistory := [],
    lastPitTemp := none, lastCheckTime := none, lowFuelAlerted := false }

/-- Instantaneous fan-duty percent, exactly as computed at the top of
`updateFuelMonitor`: auto mode (`fanSpeed === 0`) estimates from
`targetTemp = data.pitSet - 145` (sic — the code subtracts 145 from the raw
byte); manual mode uses `(data.fanSpeed / 7) * 100`. -/
def fanDutyPercent (r : FMReading) : Rat :=
  if r.fanSpeed = 0 then
    if r.pitTemp ≠ 999 ∧ r.pitSet > 0 then
      max 0 (min 100 (((r.pitSet - 145 - r.pitTemp : Int) : Rat) / 50 * 100 + 30))
    else 0
  else (r.fanSpeed : Rat) / 7 * 100

/-- The duty estimate the spec prescribes for auto mode: the target is the
decoded pit set `rawByte + 145` (as the app's own display code decodes it),
so `duty = clamp(0, 100, (targetF − pitF) / 50 * 100 + 30)`. -/
def specFanDutyPercent (r : FMReading) : Rat :=
  if r.fanSpeed = 0 then
    if r.pitTemp ≠ 999 ∧ r.pitSet > 0 then
      max 0 (min 100 (((r.pitSet + 145 - r.pitTemp : Int) : Rat) / 50 * 100 + 30))
    else 0
  else (r.fanSpeed : Rat) / 7 * 100

/-- The fuel-level classification block of `updateFuelMonitor` (the
`fuelLevel` assignment): defaults to 100, and only classifies once the duty
history has more than 10 entries and the drop history more than 5. -/
def classifyFuel (dutyLen dropLen : Nat) (avgDuty avgDrop : Rat) : Nat :=
  if dutyLen > 10 ∧ dropLen > 5 then
    if avgDuty > 60 ∧ avgDrop < -(1/2 : Rat) then 20
    else if avgDuty > 50 ∧ avgDrop < -(1/5 : Rat) then 40
    else if avgDuty > 40 then 70
    else 100
  else 100

/-- Result of one `updateFuelMonitor` call: the new `fuelMonitor` state, the
computed fuel level, and whether the low-fuel notification was sent. -/
structure FMResult where
  state : FMState
  fuelLevel : Nat
  alertFired : Bool
  deriving DecidableEq, Repr

/-- The drop-rate step of `updateFuelMonitor`: when a previous pit
temperature and timestamp exist and the current pit reading is not 999,
append `{time: now, rate: tempDiff / timeDiff}`; otherwise leave the
history unchanged. -/
def appendDropSample (st : FMState) (data : FMReading) (now : Int) : List (Int × Rat) :=
  match st.lastPitTemp, st.lastCheckTime with
  | some lastT, some lastTime =>
      if data.pitTemp ≠ 999 then
        let timeDiff : Rat := ((now - lastTime : Int) : Rat) / 1000 / 60
        let tempDiff : Rat := ((data.pitTemp - lastT : Int) : Rat)
        st.tempDropHistory ++ [(now, tempDiff / timeDiff)]
      else st.tempDropHistory
  | _, _ => st.tempDropHistory

/-- One call of `updateFuelMonitor(data)` at time `now`, translated
step-by-step from the source: compute duty, push it, maybe push a drop-rate
sample, remember pit temp and time, prune both histories to the trailing 30
minutes, average, classify, and run the alert logic. -/
def updateFuelMonitor (st : FMState) (data : FMReading) (now : Int) : FMResult :=
  let fanDuty := fanDutyPercent data
  let dutyHist1 := st.fanDutyHistory ++ [(now, fanDuty)]
  let dropHist1 := appendDropSample st data now
  let cutoff := now - 30 * 60 * 1000
  let dutyHist := dutyHist1.filter (fun d => decide (cutoff ≤ d.1))
  let dropHist := dropHist1.filter (fun d => decide (cutoff ≤ d.1))
  let avgFanDuty : Rat :=
    if dutyHist.length > 0 then dutyHist.foldl (fun s d => s + d.2) 0 / dutyHist.length else 0
  let avgTempDrop : Rat :=
    if dropHist.length > 0 then dropHist.foldl (fun s d => s + d.2) 0 / dropHist.length else 0
  let fuelLevel : Nat := classifyFuel dutyHist.length dropHist.length avgFanDuty avgTempDrop
  let alertFired := decide (fuelLevel ≤ 20) && !st.lowFuelAlerted
  let newAlerted :=
    if fuelLevel ≤ 20 then true
    else if fuelLevel ≤ 40 then st.lowFuelAlerted
    else false
  { state := { fanDutyHistory := dutyHist, tempDropHistory := dropHist,
               lastPitTemp := some data.pitTemp, lastCheckTime := some now,
               lowFuelAlerted := newAlerted },
    fuelLevel := fuelLevel,
    alertFired := alertFired }

/-- Fold a sequence of readings through `updateFuelMonitor`, collecting the
trace of (fuel level, alert fired) pairs. -/
def runFM : FMState → List (FMReading × Int) → FMState × List (Nat × Bool)
  | st, [] => (st, [])
  | st, (r, t) :: rest =>
      let res := updateFuelMonitor st r t
      let next := runFM res.state rest
      (next.1, (res.fuelLevel, res.alertFired) :: next.2)

/-- Arithmetic mean of the values of a timestamped history, 0 when empty
(the spec's description of step 6). -/
def histMean (h : List (Int × Rat)) : Rat :=
  if h = [] then 0 else (h.map Prod.snd).sum / h.length

/-! ## Connection session (bluetooth.js, `connect` / `disconnect` /
`onDisconnected` / `reconnect` / `sendCommand`)

The asynchronous GATT layer is an external collaborator; each `await`-ed
GATT operation's outcome is supplied by an environment record, and the
`setTimeout(() => this.reconnect(), 2000)` call is modelled as a returned
`Option Nat` — `some delay` when a reconnect attempt is scheduled, `none`
when nothing further is scheduled. -/

/-- The mutable fields of `BBQBluetooth` that the session logic reads and
writes; GATT handles are modelled as "resolved or not" flags, the device as
an optional identity. -/
structure BTState where
  connected : Bool
  device : Option Nat
  server : Bool
  service : Bool
  telemetryChar : Bool
  writeChar : Bool
  paired : Bool
  intentionalDisconnect : Bool
  status : String
  statusMsg : String
  deriving DecidableEq, Repr

/-- The field values set by the `BBQBluetooth` constructor. -/
def initBTState : BTState :=
  { connected := false, device := none, server := false, service := false,
    telemetryChar := false, writeChar := false, paired := false,
    intentionalDisconnect := false, status := "disconnected", statusMsg := "" }

/-- Outcomes of the awaited GATT operations during `connect()`. -/
structure ConnectEnv where
  requestOk : Bool
  deviceId : Nat
  gattTries : List Bool
  serviceOk : Bool
  telemetryOk : Bool
  writeOk : Bool
  pairReadOk : Bool
  notifyOk : Bool
  deriving DecidableEq, Repr

/-- `connect()`: device request, GATT connect with up to 3 attempts, service
and characteristic resolution. The write-characteristic lookup failure is
caught locally (`this.writeChar = null`) and connection proceeds; any other
failure lands in the outer catch, which reports `disconnected` and returns
`false`. Returns the new state and the boolean `connect()` resolves with. -/
def connect (s0 : BTState) (env : ConnectEnv) : BTState × Bool :=
  if !env.requestOk then
    ({ s0 with status := "disconnected", statusMsg := "connect failed" }, false)
  else
    let s1 := { s0 with device := some env.deviceId, status := "connecting" }
    if !(env.gattTries.take 3).any id then
      ({ s1 with status := "disconnected", statusMsg := "Failed to connect to GATT server" }, false)
    else
      let s2 := { s1 with server := true }
      if !env.serviceOk then
        ({ s2 with status := "disconnected", statusMsg := "connect failed" }, false)
      else
        let s3 := { s2 with service := true }
        if !env.telemetryOk then
          ({ s3 with status := "disconnected", statusMsg := "connect failed" }, false)
        else
          let s4 := { s3 with telemetryChar := true }
          let s5 :=
            if env.writeOk then
              { s4 with writeChar := true, paired := env.pairReadOk || s4.paired }
            else
              { s4 with writeChar := false }
          if !env.notifyOk then
            ({ s5 with status := "disconnected", statusMsg := "connect failed" }, false)
          else
            ({ s5 with connected := true, status := "connected" }, true)

/-- `sendCommand(command, value)`: throws `'Not connected to device'` when
`!this.connected || !this.writeChar`; otherwise writes the 2-byte frame
(delivery outcome supplied by `writeDelivers`). -/
def sendCommand (s : BTState) (writeDelivers : Bool) (command value : Nat) :
    Except String (List Nat) :=
  if !s.connected || !s.writeChar then Except.error "Not connected to device"
  else if writeDelivers then Except.ok [command, value]
  else Except.error "write failed"

/-- `disconnect()`: sets the intentional flag first, tears the channel down
and clears every handle including the device identity. -/
def disconnect (s : BTState) : BTState :=
  { s with intentionalDisconnect := true, connected := false, device := none,
           server := false, service := false, telemetryChar := false,
           writeChar := false, status := "disconnected", statusMsg := "Disconnected" }

/-- `onDisconnected()`: clears the handles, and when the session was
connected with a remembered device and the disconnect was not intentional,
schedules exactly one `reconnect()` after a fixed 2000 ms delay; the
intentional flag is reset afterwards in every case. -/
def onDisconnected (s : BTState) : BTState × Option Nat :=
  let wasConnected := s.connected
  let s1 := { s with connected := false, server := false, service := false,
                     telemetryChar := false, writeChar := false,
                     status := "disconnected", statusMsg := "Disconnected" }
  if wasConnected && s1.device.isSome && !s1.intentionalDisconnect then
    ({ s1 with status := "connecting", statusMsg := "Reconnecting...",
               intentionalDisconnect := false }, some 2000)
  else
    ({ s1 with intentionalDisconnect := false }, none)

/-- Outcomes of the awaited GATT operations during `reconnect()`. -/
structure ReconnectEnv where
  gattOk : Bool
  serviceOk : Bool
  telemetryOk : Bool
  writeOk : Bool
  notifyOk : Bool
  deriving DecidableEq, Repr

/-- Whether the single reconnect cycle succeeds (all awaited steps other
than the caught write-characteristic lookup succeed). -/
def reconnectSucceeds (env : ReconnectEnv) : Bool :=
  env.gattOk && env.serviceOk && env.telemetryOk && env.notifyOk

/-- `reconnect()`: one reconnect cycle — reopen the GATT connection,
re-resolve service and characteristics (the write characteristic again with
a local catch), re-subscribe notifications. The catch reports
`'Reconnect failed - click Connect'` and discards the device identity.
Returns the new state, whether a reconnect attempt was actually made, and
what further reconnect it schedules (`none`: the source contains no retry
loop and no `setTimeout`). -/
def reconnect (s : BTState) (env : ReconnectEnv) : BTState × Bool × Option Nat :=
  match s.device with
  | none =>
      ({ s with status := "disconnected",
                statusMsg := "Device lost - please reconnect manually" }, false, none)
  | some _ =>
      if !env.gattOk then
        ({ s with status := "disconnected",
                  statusMsg := "Reconnect failed - click Connect", device := none },
         true, none)
      else
        let s1 := { s with server := true }
        if !env.serviceOk then
          ({ s1 with status := "disconnected",
                     statusMsg := "Reconnect failed - click Connect", device := none },
           true, none)
        else
          let s2 := { s1 with service := true }
          if !env.telemetryOk then
            ({ s2 with status := "disconnected",
                       statusMsg := "Reconnect failed - click Connect", device := none },
             true, none)
          else
            let s3 := { s2 with telemetryChar := true, writeChar := env.writeOk }
            if !env.notifyOk then
              ({ s3 with status := "disconnected",
                         statusMsg := "Reconnect failed - click Connect", device := none },
               true, none)
            else
              ({ s3 with connected := true, status := "connected" }, true, none)

/-! ## Concrete telemetry sequences used as test vectors -/

/-- A manual-fan (speed 7) session whose pit temperature declines 10 °F per
minute: ten readings, one per minute, 400 °F down to 310 °F. -/
def declinePrefix : List (FMReading × Int) :=
  [(⟨7, 400, 0⟩, 0), (⟨7, 390, 0⟩, 60000), (⟨7, 380, 0⟩, 120000),
   (⟨7, 370, 0⟩, 180000), (⟨7, 360, 0⟩, 240000), (⟨7, 350, 0⟩, 300000),
   (⟨7, 340, 0⟩, 360000), (⟨7, 330, 0⟩, 420000), (⟨7, 320, 0⟩, 480000),
   (⟨7, 310, 0⟩, 540000)]

/-- Two further declining readings; they push the duty history past 10
samples and the drop history past 5, with mean duty 100 and mean drop
−10 °F/min, so the classifier reports the critical level. -/
def criticalSteps : List (FMReading × Int) :=
  [(⟨7, 300, 0⟩, 600000), (⟨7, 290, 0⟩, 660000)]

/-- One recovery reading: the pit jumps back up to 395 °F, lifting the mean
drop rate to −5/12 °F/min, which classifies as level 40 ("low"). -/
def recoveryStep : List (FMReading × Int) :=
  [(⟨7, 395, 0⟩, 720000)]

/-- A probe-disconnect episode: first reading carries the 999 sentinel,
the second a normal 250 °F one minute later. -/
def sentinelRun : List (FMReading × Int) :=
  [(⟨7, 999, 0⟩, 0), (⟨7, 250, 0⟩, 60000)]

/-! ## Theorems: telemetry and command codec -/

/-- C1: a buffer whose length is not 20 is rejected as malformed and the
data callback is never invoked (no partial reading); on every 20-byte
buffer the decode is total, and it is deterministic (equal byte buffers
yield equal readings). -/
theorem telemetry_decode_malformed_vs_total (b : List Nat) :
    (b.length ≠ 20 → handleTelemetry b = none) ∧
    (b.length = 20 → ∃ r, handleTelemetry b = some r) ∧
    (∀ b2 : List Nat, b = b2 → handleTelemetry b = handleTelemetry b2) := by
  refine ⟨fun h => ?_, fun h => ⟨decodeFrame b, ?_⟩, fun b2 h => by rw [h]⟩ <;>
    simp [handleTelemetry, h]

/-- Witness for C1: the 3-byte buffer `[1,2,3]` is rejected with no
reading; the spec's end-to-end 20-byte frame decodes to some reading. -/
theorem telemetry_decode_malformed_vs_total_witness :
    (([1, 2, 3] : List Nat).length ≠ 20 ∧ handleTelemetry [1, 2, 3] = none) ∧
    (([0, 0, 0, 0, 200, 0, 201, 0, 202, 50, 80, 200, 210, 0, 0, 0, 0, 0, 0, 0] : List Nat).length = 20 ∧
      ∃ r, handleTelemetry [0, 0, 0, 0, 200, 0, 201, 0, 202, 50, 80, 200, 210, 0, 0, 0, 0, 0, 0, 0] = some r) :=
  ⟨⟨by decide, (telemetry_decode_malformed_vs_total [1, 2, 3]).1 (by decide)⟩,
   ⟨rfl, (telemetry_decode_malformed_vs_total _).2.1 rfl⟩⟩

/-- C2: for every pit-set-family logical temperature `x` with
150 ≤ x ≤ 400, encoding (`arg = clamp(x) − 145`) and then decoding the raw
byte (`targetF = raw + 145`) yields `x` again, for all four pit-set-family
encoders; in particular `setPitTemp(225)` produces argument byte 80 and
decoding byte 80 yields 225 °F. -/
theorem pit_set_encode_decode_roundtrip :
    (∀ x : Int, 150 ≤ x → x ≤ 400 →
      decodePitSet (setPitTempArg x) = x ∧
      decodePitSet (setDelayPitSetArg x) = x ∧
      decodePitSet (setFood1PitSetArg x) = x ∧
      decodePitSet (setFood2PitSetArg x) = x) ∧
    setPitTempArg 225 = 80 ∧ decodePitSet 80 = 225 := by
  refine ⟨fun x h1 h2 => ?_, ?_, ?_⟩
  · unfold decodePitSet setPitTempArg setDelayPitSetArg setFood1PitSetArg setFood2PitSetArg
    refine ⟨by omega, ?_, ?_, ?_⟩ <;> (split_ifs <;> omega)
  · unfold setPitTempArg; omega
  · unfold decodePitSet; omega

/-- Witness for C2: the round trip evaluated at 225 °F. -/
theorem pit_set_encode_decode_roundtrip_witness :
    (150 : Int) ≤ 225 ∧ (225 : Int) ≤ 400 ∧ decodePitSet (setPitTempArg 225) = 225 :=
  ⟨by omega, by omega, (pit_set_encode_decode_roundtrip.1 225 (by omega) (by omega)).1⟩

/-- C3: every numeric encoder clamps its logical input into the device's
accepted range before the storage transform, and clamping is absorbed by
encoding — `encode(clamp(v)) = encode(v)` for every `v` (in particular
every out-of-range `v`); `setPitTemp(500)` and `setPitTemp(400)` produce
the identical frame `[0x01, 255]`, and no input is rejected (all encoders
are total functions). -/
theorem encode_clamp_absorbed :
    (∀ v : Int,
      setPitTempArg (clampPitTemp v) = setPitTempArg v ∧
      setFood1AlarmArg (clampAlarm50to250 v) = setFood1AlarmArg v ∧
      setFood2AlarmArg (clampAlarm50to250 v) = setFood2AlarmArg v ∧
      setPitAlarmArg (clampPitAlarm v) = setPitAlarmArg v ∧
      setFanSpeedArg (clampRange 0 5 v) = setFanSpeedArg v ∧
      setSoundLevelArg (clampRange 0 5 v) = setSoundLevelArg v ∧
      (setDisplayBrightnessArg (clampRange 1 3 v)).1 = (setDisplayBrightnessArg v).1 ∧
      setDelayTimeArg (clampRange 0 96 v) = setDelayTimeArg v ∧
      setDelayPitSetArg (clampOptPitSet v) = setDelayPitSetArg v ∧
      setFood1TempTriggerArg (clampAlarm50to250 v) = setFood1TempTriggerArg v ∧
      setFood1PitSetArg (clampOptPitSet v) = setFood1PitSetArg v ∧
      setFood2TempTriggerArg (clampAlarm50to250 v) = setFood2TempTriggerArg v ∧
      setFood2PitSetArg (clampOptPitSet v) = setFood2PitSetArg v) ∧
    setPitTempFrame 500 = [1, 255] ∧ setPitTempFrame 400 = [1, 255] := by
  refine ⟨fun v => ?_, ?_, ?_⟩
  · unfold setPitTempArg clampPitTemp setFood1AlarmArg setFood2AlarmArg clampAlarm50to250
      setPitAlarmArg clampPitAlarm setFanSpeedArg setSoundLevelArg setDisplayBrightnessArg
      setDelayTimeArg setDelayPitSetArg setFood1TempTriggerArg setFood1PitSetArg
      setFood2TempTriggerArg setFood2PitSetArg clampOptPitSet clampRange
    refine ⟨by omega, ?_, ?_, ?_, by omega, by omega, by omega, by omega, ?_, ?_, ?_, ?_, ?_⟩ <;>
      (split_ifs <;> omega)
  · show [(1 : Int), setPitTempArg 500] = [1, 255]
    have : setPitTempArg 500 = 255 := by unfold setPitTempArg; omega
    rw [this]
  · show [(1 : Int), setPitTempArg 400] = [1, 255]
    have : setPitTempArg 400 = 255 := by unfold setPitTempArg; omega
    rw [this]

/-- C8: the display-brightness encoder sends the input clamped to 1–3, and
when the caller requests level 0 it substitutes the minimum non-zero level
1 and raises the warning flag rather than failing silently. -/
theorem display_brightness_zero_substituted (level : Int) :
    (setDisplayBrightnessArg level).1 = max 1 (min 3 level) ∧
    (level = 0 →
      (setDisplayBrightnessArg level).1 = 1 ∧ (setDisplayBrightnessArg level).2 = true) := by
  refine ⟨rfl, fun h => ?_⟩
  subst h
  constructor
  · show max 1 (min 3 (0 : Int)) = 1
    omega
  · simp [setDisplayBrightnessArg]

/-- Witness for C8: the encoder evaluated at requested level 0. -/
theorem display_brightness_zero_substituted_witness :
    (setDisplayBrightnessArg 0).1 = 1 ∧ (setDisplayBrightnessArg 0).2 = true :=
  (display_brightness_zero_substituted 0).2 rfl

/-! ## Theorems: fuel estimator -/

theorem foldl_add_snd (h : List (Int × Rat)) (init : Rat) :
    h.foldl (fun s d => s + d.2) init = init + (h.map Prod.snd).sum := by
  induction h generalizing init with
  | nil => simp
  | cons a t ih => simp [ih, add_assoc]

/-- The running-average expression of `updateFuelMonitor` equals the
arithmetic mean of the history's values. -/
theorem avg_eq_histMean (h : List (Int × Rat)) :
    (if h.length > 0 then h.foldl (fun s d => s + d.2) 0 / (h.length : Rat) else 0) =
      histMean h := by
  unfold histMean
  rcases h with _ | ⟨a, t⟩
  · simp
  · simp [foldl_add_snd]

theorem classifyFuel_warmup (dl tl : Nat) (a b : Rat) (h : dl < 11 ∨ tl < 6) :
    classifyFuel dl tl a b = 100 := by
  unfold classifyFuel
  rw [if_neg (show ¬(dl > 10 ∧ tl > 5) by omega)]

theorem classifyFuel_ready (dl tl : Nat) (a b : Rat) (h1 : 11 ≤ dl) (h2 : 6 ≤ tl) :
    classifyFuel dl tl a b =
      if a > 60 ∧ b < -(1/2 : Rat) then 20
      else if a > 50 ∧ b < -(1/5 : Rat) then 40
      else if a > 40 then 70
      else 100 := by
  unfold classifyFuel
  rw [if_pos (show dl > 10 ∧ tl > 5 by omega)]

/-- The post-state histories of one update are the freshly pushed histories
pruned to the trailing 30-minute window. -/
theorem updateFM_state_histories (st : FMState) (data : FMReading) (now : Int) :
    (updateFuelMonitor st data now).state.fanDutyHistory =
      (st.fanDutyHistory ++ [(now, fanDutyPercent data)]).filter
        (fun d => decide (now - 30 * 60 * 1000 ≤ d.1)) ∧
    (updateFuelMonitor st data now).state.tempDropHistory =
      (appendDropSample st data now).filter
        (fun d => decide (now - 30 * 60 * 1000 ≤ d.1)) :=
  ⟨rfl, rfl⟩

/-- The fuel level of one update is the classification of the post-state
histories' lengths and arithmetic means. -/
theorem updateFM_level (st : FMState) (data : FMReading) (now : Int) :
    (updateFuelMonitor st data now).fuelLevel =
      classifyFuel (updateFuelMonitor st data now).state.fanDutyHistory.length
        (updateFuelMonitor st data now).state.tempDropHistory.length
        (histMean (updateFuelMonitor st data now).state.fanDutyHistory)
        (histMean (updateFuelMonitor st data now).state.tempDropHistory) := by
  simp only [updateFuelMonitor]
  rw [avg_eq_histMean, avg_eq_histMean]

theorem updateFM_alertFired (st : FMState) (data : FMReading) (now : Int) :
    (updateFuelMonitor st data now).alertFired =
      (decide ((updateFuelMonitor st data now).fuelLevel ≤ 20) && !st.lowFuelAlerted) :=
  rfl

theorem updateFM_alerted (st : FMState) (data : FMReading) (now : Int) :
    (updateFuelMonitor st data now).state.lowFuelAlerted =
      (decide ((updateFuelMonitor st data now).fuelLevel ≤ 20) ||
       (st.lowFuelAlerted && decide ((updateFuelMonitor st data now).fuelLevel ≤ 40))) := by
  show (if (updateFuelMonitor st data now).fuelLevel ≤ 20 then true
        else if (updateFuelMonitor st data now).fuelLevel ≤ 40 then st.lowFuelAlerted
        else false) = _
  by_cases h1 : (updateFuelMonitor st data now).fuelLevel ≤ 20
  · simp [h1]
  · by_cases h2 : (updateFuelMonitor st data now).fuelLevel ≤ 40 <;> simp [h1, h2]

theorem runFM_cons (st : FMState) (r : FMReading) (t : Int) (rest : List (FMReading × Int)) :
    runFM st ((r, t) :: rest) =
      ((runFM (updateFuelMonitor st r t).state rest).1,
       ((updateFuelMonitor st r t).fuelLevel, (updateFuelMonitor st r t).alertFired) ::
         (runFM (updateFuelMonitor st r t).state rest).2) :=
  rfl

theorem runFM_append (st : FMState) (us1 us2 : List (FMReading × Int)) :
    runFM st (us1 ++ us2) =
      ((runFM (runFM st us1).1 us2).1,
       (runFM st us1).2 ++ (runFM (runFM st us1).1 us2).2) := by
  induction us1 generalizing st with
  | nil => simp [runFM]
  | cons u rest ih =>
    obtain ⟨r, t⟩ := u
    simp [runFM_cons, ih]

/-- Once the alerted flag is set, a run whose computed levels all stay at
or below 40 keeps the flag set and fires no further alert. -/
theorem runFM_no_fire_of_alerted (us : List (FMReading × Int)) :
    ∀ st : FMState, st.lowFuelAlerted = true →
      (∀ p ∈ (runFM st us).2, p.1 ≤ 40) →
      (runFM st us).1.lowFuelAlerted = true ∧
      (runFM st us).2.countP (fun p => p.2) = 0 := by
  induction us with
  | nil => exact fun st h _ => ⟨h, rfl⟩
  | cons u rest ih =>
    obtain ⟨r, t⟩ := u
    intro st h hall
    rw [runFM_cons] at hall
    obtain ⟨hhead, htail⟩ := List.forall_mem_cons.mp hall
    have hfired : (updateFuelMonitor st r t).alertFired = false := by
      rw [updateFM_alertFired, h]; simp
    have halerted : (updateFuelMonitor st r t).state.lowFuelAlerted = true := by
      rw [updateFM_alerted, h]
      simp [hhead]
    obtain ⟨hf, hc⟩ := ih (updateFuelMonitor st r t).state halerted htail
    rw [runFM_cons]
    exact ⟨hf, by simp [List.countP_cons, hfired, hc]⟩

/-- While the computed level stays above 20, the alerted flag stays clear
and no alert fires. -/
theorem runFM_flag_clear_of_high (us : List (FMReading × Int)) :
    ∀ st : FMState, st.lowFuelAlerted = false →
      (∀ p ∈ (runFM st us).2, 20 < p.1) →
      (runFM st us).1.lowFuelAlerted = false ∧
      (runFM st us).2.countP (fun p => p.2) = 0 := by
  induction us with
  | nil => exact fun st h _ => ⟨h, rfl⟩
  | cons u rest ih =>
    obtain ⟨r, t⟩ := u
    intro st h hall
    rw [runFM_cons] at hall
    obtain ⟨hhead, htail⟩ := List.forall_mem_cons.mp hall
    have hnot : ¬ (updateFuelMonitor st r t).fuelLevel ≤ 20 := by omega
    have hfired : (updateFuelMonitor st r t).alertFired = false := by
      rw [updateFM_alertFired]; simp [hnot]
    have halerted : (updateFuelMonitor st r t).state.lowFuelAlerted = false := by
      rw [updateFM_alerted, h]
      simp [hnot]
    obtain ⟨hf, hc⟩ := ih (updateFuelMonitor st r t).state halerted htail
    rw [runFM_cons]
    exact ⟨hf, by simp [List.countP_cons, hfired, hc]⟩

/-- From a clear flag, a nonempty run whose computed levels are all
critical (≤ 20) fires the alert exactly once. -/
theorem runFM_critical_once (us : List (FMReading × Int)) (st : FMState)
    (h0 : st.lowFuelAlerted = false) (hne : us ≠ [])
    (hall : ∀ p ∈ (runFM st us).2, p.1 ≤ 20) :
    (runFM st us).2.countP (fun p => p.2) = 1 := by
  rcases us with _ | ⟨⟨r, t⟩, rest⟩
  · exact absurd rfl hne
  · rw [runFM_cons] at hall ⊢
    obtain ⟨hhead, htail⟩ := List.forall_mem_cons.mp hall
    have hfired : (updateFuelMonitor st r t).alertFired = true := by
      rw [updateFM_alertFired, h0]; simp [hhead]
    have halerted : (updateFuelMonitor st r t).state.lowFuelAlerted = true := by
      rw [updateFM_alerted]; simp [hhead]
    have htail40 : ∀ p ∈ (runFM (updateFuelMonitor st r t).state rest).2, p.1 ≤ 40 :=
      fun p hp => le_trans (htail p hp) (by omega)
    obtain ⟨_, hc⟩ := runFM_no_fire_of_alerted rest (updateFuelMonitor st r t).state halerted htail40
    simp [List.countP_cons, hfired, hc]

unseal Rat.add Rat.mul Rat.inv Rat.sub in
/-- C4: the manual branch matches the claim, but in auto mode the code
decodes the target as `pitSet − 145` instead of `pitSet + 145`: at
fan speed 0 (auto), pit temperature 200 °F, pit-set raw byte 80 (target
225 °F, as `decodePitSet` confirms), the code computes duty 0 while the
claimed formula `clamp(0, 100, (targetF − pitF) / 50 * 100 + 30)` gives
80. -/
theorem fan_duty_auto_mode_divergence :
    (∀ r : FMReading, r.fanSpeed ≠ 0 → fanDutyPercent r = (r.fanSpeed : Rat) / 7 * 100) ∧
    fanDutyPercent ⟨0, 200, 80⟩ = 0 ∧
    specFanDutyPercent ⟨0, 200, 80⟩ = 80 ∧
    decodePitSet 80 = 225 ∧
    fanDutyPercent ⟨0, 200, 80⟩ ≠ specFanDutyPercent ⟨0, 200, 80⟩ := by
  refine ⟨fun r h => ?_, by decide, by decide, by decide, by decide⟩
  unfold fanDutyPercent
  rw [if_neg h]

unseal Rat.add Rat.mul Rat.inv Rat.sub in
/-- Witness for C4: the manual branch at fan speed 7. -/
theorem fan_duty_auto_mode_divergence_witness :
    (FMReading.mk 7 300 0).fanSpeed ≠ 0 ∧ fanDutyPercent ⟨7, 300, 0⟩ = 100 :=
  ⟨by decide, by
    rw [fan_duty_auto_mode_divergence.1 ⟨7, 300, 0⟩ (by decide)]
    decide⟩

unseal Rat.add Rat.mul Rat.inv Rat.sub in
/-- C5: the drop-rate step skips a sentinel *current* reading, but step 4
still stores 999 as `lastPitTemp`; on the next normal reading the code
computes a drop rate from the remembered sentinel. On the two-reading
episode `sentinelRun` (999 at t=0, then 250 °F at t=60 s), the first
update stores `lastPitTemp = 999` and the second pushes the spurious entry
`rate = (250 − 999) / 1 = −749 °F/min` into the temp-drop history —
refuting the claim that no history entry is ever computed from the
sentinel. -/
theorem sentinel_previous_poisons_drop_history :
    (runFM initFMState [(⟨7, 999, 0⟩, 0)]).1.tempDropHistory = [] ∧
    (runFM initFMState [(⟨7, 999, 0⟩, 0)]).1.lastPitTemp = some 999 ∧
    (runFM initFMState sentinelRun).1.tempDropHistory = [((60000 : Int), (-749 : Rat))] := by
  refine ⟨by decide, by decide, by decide⟩

/-- C6: the reported fuel level is 100 whenever the pruned duty history has
fewer than 11 samples or the pruned drop history fewer than 6; once both
minimums are reached the level is the 20/40/70/100 classification by the
arithmetic means of the two histories, each pruned to entries with
`time ≥ now − 30 min` (mean 0 for an empty history). -/
theorem fuel_level_classification (st : FMState) (data : FMReading) (now : Int) :
    (updateFuelMonitor st data now).state.fanDutyHistory =
      (st.fanDutyHistory ++ [(now, fanDutyPercent data)]).filter
        (fun d => decide (now - 30 * 60 * 1000 ≤ d.1)) ∧
    (updateFuelMonitor st data now).state.tempDropHistory =
      (appendDropSample st data now).filter
        (fun d => decide (now - 30 * 60 * 1000 ≤ d.1)) ∧
    ((updateFuelMonitor st data now).state.fanDutyHistory.length < 11 ∨
        (updateFuelMonitor st data now).state.tempDropHistory.length < 6 →
      (updateFuelMonitor st data now).fuelLevel = 100) ∧
    (11 ≤ (updateFuelMonitor st data now).state.fanDutyHistory.length →
      6 ≤ (updateFuelMonitor st data now).state.tempDropHistory.length →
      (updateFuelMonitor st data now).fuelLevel =
        if histMean ((updateFuelMonitor st data now).state.fanDutyHistory) > 60 ∧
            histMean ((updateFuelMonitor st data now).state.tempDropHistory) < -(1/2 : Rat) then 20
        else if histMean ((updateFuelMonitor st data now).state.fanDutyHistory) > 50 ∧
            histMean ((updateFuelMonitor st data now).state.tempDropHistory) < -(1/5 : Rat) then 40
        else if histMean ((updateFuelMonitor st data now).state.fanDutyHistory) > 40 then 70
        else 100) := by
  refine ⟨(updateFM_state_histories st data now).1, (updateFM_state_histories st data now).2,
    fun h => ?_, fun h1 h2 => ?_⟩
  · rw [updateFM_level]
    exact classifyFuel_warmup _ _ _ _ h
  · rw [updateFM_level]
    exact classifyFuel_ready _ _ _ _ h1 h2

unseal Rat.add Rat.mul Rat.inv Rat.sub in
/-- Witness for C6: the very first update of a session has a 1-sample duty
history and an empty drop history, so the reported level is 100. -/
theorem fuel_level_classification_witness :
    ((updateFuelMonitor initFMState ⟨7, 400, 0⟩ 0).state.fanDutyHistory.length < 11 ∨
      (updateFuelMonitor initFMState ⟨7, 400, 0⟩ 0).state.tempDropHistory.length < 6) ∧
    (updateFuelMonitor initFMState ⟨7, 400, 0⟩ 0).fuelLevel = 100 :=
  ⟨by decide, (fuel_level_classification initFMState ⟨7, 400, 0⟩ 0).2.2.1 (by decide)⟩

unseal Rat.add Rat.mul Rat.inv Rat.sub in
/-- Counterexample to C7 as stated: the claim says the alerted flag is
cleared as soon as the level rises above 20, but on the concrete run
`declinePrefix ++ criticalSteps ++ recoveryStep` the final update computes
level 40 (> 20) and the flag is still set — the code clears it only in the
`else` branch, i.e. when the level rises above 40. The trace also shows
the alert firing exactly once over the two critical samples. -/
theorem alert_flag_kept_at_level_40 :
    (runFM initFMState (declinePrefix ++ criticalSteps ++ recoveryStep)).2.map Prod.fst =
      [100, 100, 100, 100, 100, 100, 100, 100, 100, 100, 20, 20, 40] ∧
    (runFM initFMState (declinePrefix ++ criticalSteps ++ recoveryStep)).2.countP
      (fun p => p.2) = 1 ∧
    (runFM initFMState (declinePrefix ++ criticalSteps ++ recoveryStep)).1.lowFuelAlerted =
      true := by
  refine ⟨by decide, by decide, by decide⟩

/-- C7 (amended): the alert fires exactly when the computed level is ≤ 20
with the alerted flag clear; the flag is set at level ≤ 20, kept unchanged
at levels in (20, 40], and cleared only when the level rises above 40 (not
immediately above 20); consequently over any update sequence that enters
the critical level and stays there, the alert fires exactly once, not once
per sample. -/
theorem low_fuel_alert_one_shot :
    (∀ (st : FMState) (data : FMReading) (now : Int),
      ((updateFuelMonitor st data now).alertFired = true ↔
        (updateFuelMonitor st data now).fuelLevel ≤ 20 ∧ st.lowFuelAlerted = false) ∧
      (updateFuelMonitor st data now).state.lowFuelAlerted =
        (decide ((updateFuelMonitor st data now).fuelLevel ≤ 20) ||
         (st.lowFuelAlerted && decide ((updateFuelMonitor st data now).fuelLevel ≤ 40)))) ∧
    (∀ (st : FMState) (us1 us2 : List (FMReading × Int)),
      st.lowFuelAlerted = false → us2 ≠ [] →
      (∀ p ∈ (runFM st us1).2, 20 < p.1) →
      (∀ p ∈ (runFM (runFM st us1).1 us2).2, p.1 ≤ 20) →
      (runFM st (us1 ++ us2)).2.countP (fun p => p.2) = 1) := by
  constructor
  · intro st data now
    refine ⟨?_, updateFM_alerted st data now⟩
    rw [updateFM_alertFired]
    cases h : st.lowFuelAlerted <;> simp [h]
  · intro st us1 us2 h0 hne hhigh hlow
    obtain ⟨hmidflag, hmidcount⟩ := runFM_flag_clear_of_high us1 st h0 hhigh
    have hc2 := runFM_critical_once us2 (runFM st us1).1 hmidflag hne hlow
    rw [runFM_append]
    simp [List.countP_append, hmidcount, hc2]

unseal Rat.add Rat.mul Rat.inv Rat.sub in
/-- Witness for C7: from a fresh session, ten above-critical updates
followed by two critical ones fire the alert exactly once. -/
theorem low_fuel_alert_one_shot_witness :
    initFMState.lowFuelAlerted = false ∧
    (runFM initFMState (declinePrefix ++ criticalSteps)).2.countP (fun p => p.2) = 1 :=
  ⟨rfl, low_fuel_alert_one_shot.2 initFMState declinePrefix criticalSteps rfl
    (by decide) (by decide) (by decide)⟩

/-! ## Theorems: connection session -/

/-- C9: on an unsolicited disconnect from a connected session with a
remembered device and the intentional flag clear, exactly one reconnect is
scheduled, after the fixed 2000 ms delay; the reconnect cycle itself makes
the attempt and schedules nothing further (no retries); if the attempt
fails the session ends disconnected with the error reported and the device
identity discarded; and a user-initiated `disconnect()` sets the
intentional flag and leads to no auto-reconnect being scheduled. -/
theorem auto_reconnect_exactly_once (s : BTState) (d : Nat)
    (hc : s.connected = true) (hd : s.device = some d)
    (hi : s.intentionalDisconnect = false) :
    (onDisconnected s).2 = some 2000 ∧
    (∀ env : ReconnectEnv,
      (reconnect (onDisconnected s).1 env).2.1 = true ∧
      (reconnect (onDisconnected s).1 env).2.2 = none ∧
      (reconnectSucceeds env = false →
        (reconnect (onDisconnected s).1 env).1.connected = false ∧
        (reconnect (onDisconnected s).1 env).1.device = none ∧
        (reconnect (onDisconnected s).1 env).1.status = "disconnected" ∧
        (reconnect (onDisconnected s).1 env).1.statusMsg =
          "Reconnect failed - click Connect") ∧
      (reconnectSucceeds env = true →
        (reconnect (onDisconnected s).1 env).1.connected = true)) ∧
    (disconnect s).intentionalDisconnect = true ∧
    (onDisconnected (disconnect s)).2 = none := by
  refine ⟨by simp [onDisconnected, hc, hd, hi], fun env => ?_, by simp [disconnect],
    by simp [onDisconnected, disconnect]⟩
  have hdev : (onDisconnected s).1.device = some d := by
    simp [onDisconnected, hc, hd, hi]
  have hconn : (onDisconnected s).1.connected = false := by
    simp [onDisconnected, hc, hd, hi]
  obtain ⟨g, sv, tl, w, n⟩ := env
  cases g <;> cases sv <;> cases tl <;> cases n <;>
    simp [reconnect, reconnectSucceeds, hdev, hconn]

/-- Witness for C9: a concrete connected session with device identity 1,
evaluated against an all-failing reconnect environment. -/
theorem auto_reconnect_exactly_once_witness :
    ((⟨true, some 1, true, true, true, true, true, false, "connected", "ok"⟩ :
        BTState).connected = true) ∧
    (onDisconnected
      (⟨true, some 1, true, true, true, true, true, false, "connected", "ok"⟩ :
        BTState)).2 = some 2000 :=
  ⟨rfl, (auto_reconnect_exactly_once
    ⟨true, some 1, true, true, true, true, true, false, "connected", "ok"⟩ 1
    rfl rfl rfl).1⟩

/-- C10 (implicit): `connect()` can complete successfully — resolving to
`true` with the session `connected` — even when the write-characteristic
lookup fails (the failure is caught and `writeChar` is left null), and
every subsequent `sendCommand` then throws the NotConnected error
`'Not connected to device'` despite the connected session. -/
theorem connect_ok_without_write_endpoint (s0 : BTState) (env : ConnectEnv)
    (h1 : env.requestOk = true) (h2 : (env.gattTries.take 3).any id = true)
    (h3 : env.serviceOk = true) (h4 : env.telemetryOk = true)
    (h5 : env.writeOk = false) (h6 : env.notifyOk = true) :
    (connect s0 env).2 = true ∧
    (connect s0 env).1.connected = true ∧
    (connect s0 env).1.writeChar = false ∧
    ∀ (w : Bool) (cmd val : Nat),
      sendCommand (connect s0 env).1 w cmd val =
        Except.error "Not connected to device" := by
  refine ⟨?_, ?_, ?_, fun w cmd val => ?_⟩ <;>
    simp [connect, sendCommand, h1, h2, h3, h4, h5, h6]

/-- Witness for C10: a fresh session, an environment where only the write
characteristic lookup fails, and a pit-temperature command afterwards. -/
theorem connect_ok_without_write_endpoint_witness :
    (connect initBTState ⟨true, 1, [true], true, true, false, true, true⟩).2 = true ∧
    sendCommand (connect initBTState ⟨true, 1, [true], true, true, false, true, true⟩).1
      true 1 80 = Except.error "Not connected to device" :=
  ⟨(connect_ok_without_write_endpoint initBTState
      ⟨true, 1, [true], true, true, false, true, true⟩ rfl rfl rfl rfl rfl rfl).1,
   (connect_ok_without_write_endpoint initBTState
      ⟨true, 1, [true], true, true, false, true, true⟩ rfl rfl rfl rfl rfl rfl).2.2.2
      true 1 80⟩

end BBQ
